import Mathlib

/-!
Shallow embedding of the Form & Function calc engine (`src/main.py`).

Numeric values are modelled with exact rationals (`ℚ`); the Python floats'
NaN/Inf guards can never fire in exact arithmetic, so the corresponding
`np.isnan`/`np.isinf` checks are noted in comments where they occur in the
source but have no arm in the embedding.  Fallible functions return
`Except CalcError`; the catalog (fetched over the network in the source,
with an embedded fallback) is passed in as an explicit list parameter.
-/

namespace CalcEngine

/-- Steel beam data structure (dataclass `SteelBeam` in `src/main.py`). -/
structure SteelBeam where
  section_designation : String
  mass_per_metre : ℚ
  depth_of_section : ℚ
  width_of_section : ℚ
  thickness_web : ℚ
  thickness_flange : ℚ
  root_radius : ℚ
  depth_between_fillets : ℚ
  ratios_for_local_buckling_web : ℚ
  ratios_for_local_buckling_flange : ℚ
  end_clearance : ℚ
  notch : ℚ
  dimensions_for_detailing_n : ℚ
  surface_area_per_metre : ℚ
  surface_area_per_tonne : ℚ
  second_moment_of_area_axis_y : ℚ
  second_moment_of_area_axis_z : ℚ
  radius_of_gyration_axis_y : ℚ
  radius_of_gyration_axis_z : ℚ
  elastic_modulus_axis_y : ℚ
  elastic_modulus_axis_z : ℚ
  plastic_modulus_axis_y : ℚ
  plastic_modulus_axis_z : ℚ
  buckling_parameter : ℚ
  torsional_index : ℚ
  warping_constant : ℚ
  torsional_constant : ℚ
  area_of_section : ℚ
  deriving DecidableEq

/-- Request model (`CalculationRequest` in `src/main.py`). -/
structure CalculationRequest where
  beam_designation : Option String
  applied_load : ℚ
  span_length : ℚ
  load_type : String
  safety_factor : ℚ
  material_grade : String
  deriving DecidableEq

/-- Response model (`CalculationResult` in `src/main.py`); the beam is kept
as a typed record rather than a string-keyed dict. -/
structure CalculationResult where
  beam : SteelBeam
  applied_load : ℚ
  span_length : ℚ
  max_moment : ℚ
  max_shear : ℚ
  max_deflection : ℚ
  stress_utilization : ℚ
  deflection_limit_check : Bool
  is_adequate : Bool
  safety_margin : ℚ
  recommendations : List String
  deriving DecidableEq

/-- Failure taxonomy: `ValueError` raised from the calculators and the
request validation surfaces as HTTP 400 "Invalid input" (`invalidInput`);
a missing designation surfaces as 404 (`notFound`); an empty suitable set
in the optimal-beam search surfaces as 400 "No suitable beam found"
(`noSuitableOption`). -/
inductive CalcError where
  | invalidInput : String → CalcError
  | notFound : String → CalcError
  | noSuitableOption : CalcError
  deriving DecidableEq

/-- `self.E = 210000` N/mm², Young's modulus for steel (`BeamAnalysis.__init__`). -/
def E : ℚ := 210000

/-- `self.material_strengths.get(material_grade, 355)`: the fixed grade table
with its default of 355 for unrecognized grades. -/
def material_strength (grade : String) : ℚ :=
  if grade = "S235" then 235
  else if grade = "S275" then 275
  else if grade = "S355" then 355
  else if grade = "S460" then 460
  else 355

/-- Python `round(x, n)`: rounds to `n` decimal places.  Python rounds exact
half ties to even while `round` here rounds them up; no value rounded in this
development is an exact tie, so the two agree on everything proved below. -/
def roundTo (n : ℕ) (x : ℚ) : ℚ :=
  (round (x * 10 ^ n) : ℤ) / 10 ^ n

/-- Python fixed-point formatting `f"{x:.nf}"` used in the recommendation
messages.  Exact half ties round to even in Python and up here; no formatted
value below is a tie. -/
def fmtFixed (n : ℕ) (x : ℚ) : String :=
  let m : ℤ := round (x * 10 ^ n)
  let a : ℕ := m.natAbs
  let fpStr := toString (a % 10 ^ n)
  let pad := String.mk (List.replicate (n - fpStr.length) '0')
  (if m < 0 then "-" else "") ++ toString (a / 10 ^ n) ++ "." ++ pad ++ fpStr

/-- The load-type branch of `BeamAnalysis.calculate_moment` (src/main.py:213):
`wL²/8` for `uniform`, `PL/4` for `point`, uniform formula as default. -/
def moment_value (load span : ℚ) (load_type : String) : ℚ :=
  if load_type = "uniform" then (load * span ^ 2) / 8
  else if load_type = "point" then (load * span) / 4
  else (load * span ^ 2) / 8

/-- `BeamAnalysis.calculate_moment` (src/main.py:207).  The source's final
guard also tests `np.isnan`/`np.isinf`, which cannot fire over `ℚ`. -/
def calculate_moment (load span : ℚ) (load_type : String) : Except CalcError ℚ :=
  if load ≤ 0 ∨ span ≤ 0 then
    .error (.invalidInput "Load and span must be positive values")
  else
    let moment := moment_value load span load_type
    if moment ≤ 0 then .error (.invalidInput "Invalid moment calculation result")
    else .ok moment

/-- The load-type branch of `BeamAnalysis.calculate_shear` (src/main.py:237);
all three arms compute `load / 2`. -/
def shear_value (load : ℚ) (load_type : String) : ℚ :=
  if load_type = "uniform" then load / 2
  else if load_type = "point" then load / 2
  else load / 2

/-- `BeamAnalysis.calculate_shear` (src/main.py:231).  NaN/Inf guards cannot
fire over `ℚ`. -/
def calculate_shear (load : ℚ) (load_type : String) : Except CalcError ℚ :=
  if load ≤ 0 then
    .error (.invalidInput "Load must be a positive value")
  else
    let shear := shear_value load load_type
    if shear ≤ 0 then .error (.invalidInput "Invalid shear calculation result")
    else .ok shear

/-- The load-type branch of `BeamAnalysis.calculate_deflection`
(src/main.py:263) followed by the `abs` on line 280: `I` arrives in cm⁴ and
is scaled by 10000 to mm⁴, `w = load*1000/(span*1000)` N/mm,
`P = load*1000` N, `L = span*1000` mm. -/
def deflection_value (load span I : ℚ) (load_type : String) : ℚ :=
  if load_type = "uniform" then
    |5 * (load * 1000 / (span * 1000)) * (span * 1000) ^ 4 / (384 * E * (I * 10000))|
  else if load_type = "point" then
    |load * 1000 * (span * 1000) ^ 3 / (48 * E * (I * 10000))|
  else
    |5 * (load * 1000 / (span * 1000)) * (span * 1000) ^ 4 / (384 * E * (I * 10000))|

/-- `BeamAnalysis.calculate_deflection` (src/main.py:254).  The NaN/Inf
guard after `abs` cannot fire over `ℚ`. -/
def calculate_deflection (load span I : ℚ) (load_type : String) : Except CalcError ℚ :=
  if load ≤ 0 ∨ span ≤ 0 ∨ I ≤ 0 then
    .error (.invalidInput "Load, span, and moment of inertia must be positive values")
  else
    .ok (deflection_value load span I load_type)

/-- `BeamAnalysis.calculate_stress_utilization` (src/main.py:290): total
function, no failure path. -/
def calculate_stress_utilization (moment elastic_modulus : ℚ)
    (material_grade : String) (safety_factor : ℚ) : ℚ :=
  let M_Nmm := moment * 1000000
  let W_mm3 := elastic_modulus * 1000
  let actual_stress := M_Nmm / W_mm3
  let fy := material_strength material_grade
  let allowable_stress := fy / safety_factor
  actual_stress / allowable_stress

/-- `BeamAnalysis.generate_recommendations` (src/main.py:446): ordered rule
list; each of the three blocks contributes its matched message. -/
def generate_recommendations (stress_util : ℚ) (deflection_ok : Bool)
    (actual_deflection deflection_limit : ℚ) : List String :=
  let block1 : List String :=
    if stress_util > 1 then
      ["CRITICAL: Stress utilization (" ++ fmtFixed 2 stress_util ++
        ") exceeds limit. Consider larger beam section."]
    else if stress_util > 9 / 10 then
      ["HIGH: Stress utilization (" ++ fmtFixed 2 stress_util ++
        ") is high. Consider reviewing design."]
    else if stress_util < 1 / 2 then
      ["LOW: Stress utilization (" ++ fmtFixed 2 stress_util ++
        ") is low. Consider smaller section for economy."]
    else []
  let block2 : List String :=
    if deflection_ok = false then
      ["CRITICAL: Deflection (" ++ fmtFixed 1 actual_deflection ++
        "mm) exceeds limit (" ++ fmtFixed 1 deflection_limit ++ "mm)."]
    else if actual_deflection > deflection_limit * (8 / 10) then
      ["HIGH: Deflection approaches serviceability limit."]
    else []
  let block3 : List String :=
    if stress_util ≤ 1 ∧ deflection_ok = true then
      ["PASS: Beam is adequate for the applied loading."]
    else []
  block1 ++ block2 ++ block3

/-- First entry of `BeamAnalysis.get_embedded_beam_data` (src/main.py:114). -/
def beamUB406x178x74 : SteelBeam :=
  { section_designation := "UB406x178x74"
    mass_per_metre := 74.6
    depth_of_section := 412.8
    width_of_section := 179.5
    thickness_web := 9.3
    thickness_flange := 16.0
    root_radius := 10.2
    depth_between_fillets := 360.8
    ratios_for_local_buckling_web := 38.8
    ratios_for_local_buckling_flange := 5.61
    end_clearance := 369.0
    notch := 360.8
    dimensions_for_detailing_n := 45.0
    surface_area_per_metre := 1.17
    surface_area_per_tonne := 15.7
    second_moment_of_area_axis_y := 27400
    second_moment_of_area_axis_z := 1600
    radius_of_gyration_axis_y := 17.1
    radius_of_gyration_axis_z := 4.22
    elastic_modulus_axis_y := 1330
    elastic_modulus_axis_z := 178
    plastic_modulus_axis_y := 1500
    plastic_modulus_axis_z := 275
    buckling_parameter := 0.338
    torsional_index := 29.6
    warping_constant := 0.581
    torsional_constant := 53.8
    area_of_section := 95.0 }

/-- Second entry of `BeamAnalysis.get_embedded_beam_data` (src/main.py:144). -/
def beamUB406x178x67 : SteelBeam :=
  { section_designation := "UB406x178x67"
    mass_per_metre := 67.1
    depth_of_section := 406.4
    width_of_section := 177.9
    thickness_web := 8.6
    thickness_flange := 12.8
    root_radius := 10.2
    depth_between_fillets := 360.8
    ratios_for_local_buckling_web := 42.0
    ratios_for_local_buckling_flange := 6.95
    end_clearance := 362.6
    notch := 360.8
    dimensions_for_detailing_n := 45.0
    surface_area_per_metre := 1.15
    surface_area_per_tonne := 17.1
    second_moment_of_area_axis_y := 23500
    second_moment_of_area_axis_z := 1350
    radius_of_gyration_axis_y := 16.6
    radius_of_gyration_axis_z := 4.09
    elastic_modulus_axis_y := 1160
    elastic_modulus_axis_z := 152
    plastic_modulus_axis_y := 1300
    plastic_modulus_axis_z := 234
    buckling_parameter := 0.364
    torsional_index := 25.4
    warping_constant := 0.424
    torsional_constant := 36.4
    area_of_section := 85.5 }

/-- `BeamAnalysis.get_embedded_beam_data` (src/main.py:111): the two-section
fallback catalog. -/
def get_embedded_beam_data : List SteelBeam :=
  [beamUB406x178x74, beamUB406x178x67]

/-- `BeamAnalysis.find_beam` (src/main.py:199): first exact designation
match in the catalog, `none` when absent. -/
def find_beam (beams : List SteelBeam) (designation : String) : Option SteelBeam :=
  beams.find? (fun beam => beam.section_designation = designation)

/-- Entry of the `suitable_beams` list built in `find_optimal_beam`
(src/main.py:432): the dict with keys beam / mass / utilization. -/
structure SuitableBeam where
  beam : SteelBeam
  mass : ℚ
  utilization : ℚ
  deriving DecidableEq

/-- The loop body of `BeamAnalysis.find_optimal_beam` (src/main.py:417):
walks the catalog in order, recomputing moment, utilization and deflection
per candidate, collecting the suitable ones; a calculator error on any
candidate aborts the whole search (the candidate is not skipped). -/
def collect_suitable (request : CalculationRequest) :
    List SteelBeam → Except CalcError (List SuitableBeam)
  | [] => .ok []
  | beam :: rest => do
    let max_moment ← calculate_moment request.applied_load request.span_length request.load_type
    let stress_util := calculate_stress_utilization max_moment
      beam.elastic_modulus_axis_y request.material_grade request.safety_factor
    let max_deflection ← calculate_deflection request.applied_load request.span_length
      beam.second_moment_of_area_axis_y request.load_type
    let deflection_limit := request.span_length * 1000 / 250
    let tail ← collect_suitable request rest
    if stress_util ≤ 1 ∧ max_deflection ≤ deflection_limit then
      .ok ({ beam := beam, mass := beam.mass_per_metre, utilization := stress_util } :: tail)
    else
      .ok tail

/-- `BeamAnalysis.find_optimal_beam` (src/main.py:411): collect the suitable
candidates, fail when there are none, otherwise stable-sort by mass (Python's
`list.sort` is stable; `List.mergeSort` matches) and return the first. -/
def find_optimal_beam (beams : List SteelBeam) (request : CalculationRequest) :
    Except CalcError SteelBeam := do
  let suitable_beams ← collect_suitable request beams
  if suitable_beams.isEmpty then
    .error .noSuitableOption
  else
    match suitable_beams.mergeSort (fun a b => decide (a.mass ≤ b.mass)) with
    | [] => .error .noSuitableOption
    | s :: _ => .ok s.beam

/-- The section-resolution step of `BeamAnalysis.perform_analysis`
(src/main.py:324): `if request.beam_designation:` is Python truthiness,
false for both `None` and the empty string, in which case the optimal
search runs; otherwise an exact lookup that fails with `notFound`. -/
def resolve_beam (beams : List SteelBeam) (request : CalculationRequest) :
    Except CalcError SteelBeam :=
  match request.beam_designation with
  | some designation =>
    if designation = "" then find_optimal_beam beams request
    else
      match find_beam beams designation with
      | some b => .ok b
      | none => .error (.notFound designation)
  | none => find_optimal_beam beams request

/-- `BeamAnalysis.perform_analysis` (src/main.py:310).  The required-property
presence check on the beam dict cannot fail on typed records and the NaN/Inf
re-validation cannot fire over `ℚ`, so neither has an arm here. -/
def perform_analysis (beams : List SteelBeam) (request : CalculationRequest) :
    Except CalcError CalculationResult :=
  if request.applied_load ≤ 0 then
    .error (.invalidInput "Applied load must be greater than 0")
  else if request.span_length ≤ 0 then
    .error (.invalidInput "Span length must be greater than 0")
  else if request.safety_factor ≤ 0 then
    .error (.invalidInput "Safety factor must be greater than 0")
  else do
    let beam_data ← resolve_beam beams request
    let max_moment ← calculate_moment request.applied_load request.span_length request.load_type
    let max_shear ← calculate_shear request.applied_load request.load_type
    let max_deflection ← calculate_deflection request.applied_load request.span_length
      beam_data.second_moment_of_area_axis_y request.load_type
    let stress_utilization := calculate_stress_utilization max_moment
      beam_data.elastic_modulus_axis_y request.material_grade request.safety_factor
    let deflection_limit := request.span_length * 1000 / 250
    let deflection_ok : Bool := decide (max_deflection ≤ deflection_limit)
    let is_adequate : Bool := decide (stress_utilization ≤ 1 ∧ deflection_ok = true)
    let safety_margin := if stress_utilization < 1 then (1 - stress_utilization) * 100 else 0
    let recommendations := generate_recommendations stress_utilization deflection_ok
      max_deflection deflection_limit
    Except.ok
      { beam := beam_data
        applied_load := request.applied_load
        span_length := request.span_length
        max_moment := roundTo 2 max_moment
        max_shear := roundTo 2 max_shear
        max_deflection := roundTo 2 max_deflection
        stress_utilization := roundTo 3 stress_utilization
        deflection_limit_check := deflection_ok
        is_adequate := is_adequate
        safety_margin := roundTo 1 safety_margin
        recommendations := recommendations }

/-- The suitability check applied to one candidate inside
`find_optimal_beam` (src/main.py:431): `stress_util <= 1.0 and
max_deflection <= deflection_limit`, computed from the same calculator
calls; a candidate whose calculator call fails is not suitable (the loop
aborts there, which this predicate does not model — see `collect_suitable`). -/
def beamSuitable (request : CalculationRequest) (beam : SteelBeam) : Bool :=
  match calculate_moment request.applied_load request.span_length request.load_type,
      calculate_deflection request.applied_load request.span_length
        beam.second_moment_of_area_axis_y request.load_type with
  | .ok max_moment, .ok max_deflection =>
    decide (calculate_stress_utilization max_moment beam.elastic_modulus_axis_y
        request.material_grade request.safety_factor ≤ 1)
      && decide (max_deflection ≤ request.span_length * 1000 / 250)
  | _, _ => false

/-- The `suitable_beams` entry built for a candidate that passes the check
in `find_optimal_beam` (src/main.py:432). -/
def mk_suitable (request : CalculationRequest) (beam : SteelBeam) : SuitableBeam :=
  { beam := beam
    mass := beam.mass_per_metre
    utilization := calculate_stress_utilization
      (moment_value request.applied_load request.span_length request.load_type)
      beam.elastic_modulus_axis_y request.material_grade request.safety_factor }

/-- The end-to-end scenario of the spec's testable property: load 10 kN,
span 6 m, uniform, section UB406x178x74, grade S355, safety factor 1.6. -/
def req0 : CalculationRequest :=
  { beam_designation := some "UB406x178x74"
    applied_load := 10
    span_length := 6
    load_type := "uniform"
    safety_factor := 1.6
    material_grade := "S355" }

/-- The same load scenario as `req0` but with no target designation, so
analysis goes through the optimal-section search. -/
def req1 : CalculationRequest :=
  { beam_designation := none
    applied_load := 10
    span_length := 6
    load_type := "uniform"
    safety_factor := 1.6
    material_grade := "S355" }

/-- The result `perform_analysis` produces for `req0` on the embedded
catalog (exact rationals: deflection 1875/3836 ≈ 0.4888 mm rounds to 0.49,
utilization 1440/9443 ≈ 0.15249 rounds to 0.152, margin rounds to 84.8). -/
def res0 : CalculationResult :=
  { beam := beamUB406x178x74
    applied_load := 10
    span_length := 6
    max_moment := 45
    max_shear := 5
    max_deflection := 49 / 100
    stress_utilization := 19 / 125
    deflection_limit_check := true
    is_adequate := true
    safety_margin := 424 / 5
    recommendations :=
      ["LOW: Stress utilization (0.15) is low. Consider smaller section for economy.",
       "PASS: Beam is adequate for the applied loading."] }

/-- A malformed catalog entry: UB406x178x74 with a non-positive second
moment of area, used to exercise the abort path of the optimal search. -/
def badBeam : SteelBeam :=
  { beamUB406x178x74 with second_moment_of_area_axis_y := 0 }

lemma moment_value_pos {load span : ℚ} (hl : 0 < load) (hs : 0 < span) (load_type : String) :
    0 < moment_value load span load_type := by
  unfold moment_value
  split_ifs <;> positivity

lemma calculate_moment_pos {load span : ℚ} (load_type : String)
    (hl : 0 < load) (hs : 0 < span) :
    calculate_moment load span load_type = .ok (moment_value load span load_type) := by
  have hcond : ¬ (load ≤ 0 ∨ span ≤ 0) := by push_neg ; exact ⟨hl, hs⟩
  have hpos := moment_value_pos hl hs load_type
  unfold calculate_moment
  rw [if_neg hcond]
  exact if_neg (not_le.mpr hpos)

lemma shear_value_eq (load : ℚ) (load_type : String) :
    shear_value load load_type = load / 2 := by
  unfold shear_value
  split_ifs <;> rfl

lemma calculate_shear_pos {load : ℚ} (load_type : String) (hl : 0 < load) :
    calculate_shear load load_type = .ok (load / 2) := by
  unfold calculate_shear
  rw [if_neg (not_le.mpr hl), shear_value_eq]
  exact if_neg (not_le.mpr (by positivity))

lemma calculate_deflection_pos {load span I : ℚ} (load_type : String)
    (hl : 0 < load) (hs : 0 < span) (hI : 0 < I) :
    calculate_deflection load span I load_type =
      .ok (deflection_value load span I load_type) := by
  have hcond : ¬ (load ≤ 0 ∨ span ≤ 0 ∨ I ≤ 0) := by
    push_neg ; exact ⟨hl, hs, hI⟩
  unfold calculate_deflection
  exact if_neg hcond

/-- C5: for every load and span, `calculate_moment` returns `load·span²/8`
for load type `uniform`, `load·span/4` for `point`, and the uniform formula
for every other load-type string; it fails (with an `InvalidInput` error)
exactly when `load ≤ 0` or `span ≤ 0` or the computed moment is
non-positive (NaN/Inf cannot arise in exact arithmetic). -/
theorem calculate_moment_spec (load span : ℚ) (load_type : String) :
    (0 < load → 0 < span →
      calculate_moment load span load_type = .ok (moment_value load span load_type))
    ∧ (load_type = "uniform" → moment_value load span load_type = load * span ^ 2 / 8)
    ∧ (load_type = "point" → moment_value load span load_type = load * span / 4)
    ∧ (load_type ≠ "uniform" → load_type ≠ "point" →
        moment_value load span load_type = load * span ^ 2 / 8)
    ∧ ((∃ e, calculate_moment load span load_type = .error e) ↔
        load ≤ 0 ∨ span ≤ 0 ∨ moment_value load span load_type ≤ 0)
    ∧ (∀ e, calculate_moment load span load_type = .error e →
        ∃ msg, e = CalcError.invalidInput msg) := by
  refine ⟨fun hl hs => calculate_moment_pos load_type hl hs, ?_, ?_, ?_, ?_, ?_⟩
  · intro h ; simp [moment_value, h]
  · intro h ; simp [moment_value, h]
  · intro h1 h2 ; simp [moment_value, h1, h2]
  · constructor
    · rintro ⟨e, he⟩
      by_contra hc
      push_neg at hc
      obtain ⟨h1, h2, h3⟩ := hc
      rw [calculate_moment_pos load_type h1 h2] at he
      exact Except.noConfusion he
    · intro h
      unfold calculate_moment
      by_cases hc : load ≤ 0 ∨ span ≤ 0
      · rw [if_pos hc] ; exact ⟨_, rfl⟩
      · rw [if_neg hc]
        have h3 : moment_value load span load_type ≤ 0 := by
          rcases h with h | h | h
          · exact absurd (Or.inl h) hc
          · exact absurd (Or.inr h) hc
          · exact h
        rw [if_pos h3] ; exact ⟨_, rfl⟩
  · intro e he
    unfold calculate_moment at he
    by_cases hc : load ≤ 0 ∨ span ≤ 0
    · rw [if_pos hc] at he
      exact ⟨_, (Except.error.inj he).symm⟩
    · rw [if_neg hc] at he
      by_cases h3 : moment_value load span load_type ≤ 0
      · rw [if_pos h3] at he
        exact ⟨_, (Except.error.inj he).symm⟩
      · rw [if_neg h3] at he
        exact Except.noConfusion he

/-- C5 witness: at load 10, span 6, uniform, the moment is 45 kNm. -/
theorem calculate_moment_spec_witness :
    calculate_moment 10 6 "uniform" = .ok (moment_value 10 6 "uniform")
    ∧ moment_value 10 6 "uniform" = (45 : ℚ) :=
  ⟨(calculate_moment_spec 10 6 "uniform").1 (by norm_num) (by norm_num),
    by norm_num [moment_value]⟩

/-- C7: `calculate_shear` returns `load/2` for every positive load under
both supported load types (which agree on the same load), and fails (with
an `InvalidInput` error) exactly when `load ≤ 0` (the result `load/2` is
then non-positive as well; NaN/Inf cannot arise in exact arithmetic). -/
theorem calculate_shear_spec (load : ℚ) (load_type : String) :
    (0 < load → calculate_shear load load_type = .ok (load / 2))
    ∧ calculate_shear load "uniform" = calculate_shear load "point"
    ∧ ((∃ e, calculate_shear load load_type = .error e) ↔ load ≤ 0)
    ∧ (∀ e, calculate_shear load load_type = .error e →
        ∃ msg, e = CalcError.invalidInput msg) := by
  refine ⟨fun hl => calculate_shear_pos load_type hl, ?_, ?_, ?_⟩
  · by_cases hl : 0 < load
    · rw [calculate_shear_pos _ hl, calculate_shear_pos _ hl]
    · have h : load ≤ 0 := not_lt.mp hl
      unfold calculate_shear
      rw [if_pos h, if_pos h]
  · constructor
    · rintro ⟨e, he⟩
      by_contra hc
      rw [calculate_shear_pos load_type (not_le.mp hc)] at he
      exact Except.noConfusion he
    · intro h
      unfold calculate_shear
      rw [if_pos h] ; exact ⟨_, rfl⟩
  · intro e he
    unfold calculate_shear at he
    by_cases hc : load ≤ 0
    · rw [if_pos hc] at he
      exact ⟨_, (Except.error.inj he).symm⟩
    · rw [if_neg hc, shear_value_eq] at he
      have hl := not_le.mp hc
      have : ¬ load / 2 ≤ 0 := not_le.mpr (by positivity)
      rw [if_neg this] at he
      exact Except.noConfusion he

/-- C7 witness: at load 10 the shear is 5 kN. -/
theorem calculate_shear_spec_witness :
    calculate_shear 10 "uniform" = .ok (10 / 2) :=
  (calculate_shear_spec 10 "uniform").1 (by norm_num)

/-- C2: for positive load, span and I, `calculate_deflection` converts I
from cm⁴ to mm⁴ (×10000) and returns the absolute value of
`5wL⁴/(384·E·I_mm4)` for `uniform` and for any unrecognized load type,
with `w = load·1000/(span·1000)` N/mm and `L = span·1000` mm, and of
`P·L³/(48·E·I_mm4)` with `P = load·1000` N for `point`; the result is
always non-negative; it fails with `InvalidInput` exactly when load, span
or I is non-positive (NaN/Inf cannot arise in exact arithmetic). -/
theorem calculate_deflection_spec (load span I : ℚ) (load_type : String) :
    (0 < load → 0 < span → 0 < I →
      calculate_deflection load span I load_type =
        .ok (deflection_value load span I load_type))
    ∧ (load_type ≠ "point" →
        deflection_value load span I load_type =
          |5 * (load * 1000 / (span * 1000)) * (span * 1000) ^ 4 / (384 * E * (I * 10000))|)
    ∧ (load_type = "point" →
        deflection_value load span I load_type =
          |load * 1000 * (span * 1000) ^ 3 / (48 * E * (I * 10000))|)
    ∧ (∀ d, calculate_deflection load span I load_type = .ok d → 0 ≤ d)
    ∧ ((∃ e, calculate_deflection load span I load_type = .error e) ↔
        load ≤ 0 ∨ span ≤ 0 ∨ I ≤ 0)
    ∧ (∀ e, calculate_deflection load span I load_type = .error e →
        e = .invalidInput "Load, span, and moment of inertia must be positive values") := by
  refine ⟨fun hl hs hI => calculate_deflection_pos load_type hl hs hI, ?_, ?_, ?_, ?_, ?_⟩
  · intro h
    simp [deflection_value, h]
  · intro h
    have h1 : load_type ≠ "uniform" := by rw [h] ; decide
    simp [deflection_value, h, h1]
  · intro d hd
    unfold calculate_deflection at hd
    by_cases hc : load ≤ 0 ∨ span ≤ 0 ∨ I ≤ 0
    · rw [if_pos hc] at hd
      exact Except.noConfusion hd
    · rw [if_neg hc] at hd
      rw [← Except.ok.inj hd]
      unfold deflection_value
      split_ifs <;> exact abs_nonneg _
  · constructor
    · rintro ⟨e, he⟩
      by_contra hc
      push_neg at hc
      obtain ⟨h1, h2, h3⟩ := hc
      rw [calculate_deflection_pos load_type h1 h2 h3] at he
      exact Except.noConfusion he
    · intro h
      unfold calculate_deflection
      rw [if_pos h] ; exact ⟨_, rfl⟩
  · intro e he
    unfold calculate_deflection at he
    by_cases hc : load ≤ 0 ∨ span ≤ 0 ∨ I ≤ 0
    · rw [if_pos hc] at he
      exact (Except.error.inj he).symm
    · rw [if_neg hc] at he
      exact Except.noConfusion he

/-- C2 witness: at load 10, span 6, I 27400, uniform, the deflection is
1875/3836 mm ≈ 0.4888 mm. -/
theorem calculate_deflection_spec_witness :
    calculate_deflection 10 6 27400 "uniform" = .ok (deflection_value 10 6 27400 "uniform")
    ∧ deflection_value 10 6 27400 "uniform" = (1875 / 3836 : ℚ) :=
  ⟨(calculate_deflection_spec 10 6 27400 "uniform").1 (by norm_num) (by norm_num) (by norm_num),
    by
      unfold deflection_value E
      rw [if_pos rfl, abs_of_nonneg (by norm_num)]
      norm_num⟩

lemma material_strength_pos (grade : String) : 0 < material_strength grade := by
  unfold material_strength
  split_ifs <;> norm_num

lemma material_strength_S355 : material_strength "S355" = 355 := by
  unfold material_strength
  rw [if_neg (by decide), if_neg (by decide)]
  exact if_pos rfl

lemma fmtFixed_two_2120 : fmtFixed 2 (21 / 20 : ℚ) = "1.05" := by
  have h : round ((21 / 20 : ℚ) * 10 ^ 2) = 105 := by norm_num [round_eq]
  unfold fmtFixed
  rw [h]
  rfl

/-- C8: `calculate_stress_utilization` scales linearly in the moment and in
the safety factor, and inversely in the elastic modulus, for positive
arguments and any material grade. -/
theorem stress_utilization_scaling (M W s k : ℚ) (g : String)
    (hM : 0 < M) (hW : 0 < W) (hs : 0 < s) (hk : 0 < k) :
    calculate_stress_utilization (k * M) W g s = k * calculate_stress_utilization M W g s
    ∧ calculate_stress_utilization M (k * W) g s = calculate_stress_utilization M W g s / k
    ∧ calculate_stress_utilization M W g (k * s) = k * calculate_stress_utilization M W g s := by
  have hfy : material_strength g ≠ 0 := ne_of_gt (material_strength_pos g)
  have hW' : W ≠ 0 := ne_of_gt hW
  have hs' : s ≠ 0 := ne_of_gt hs
  have hk' : k ≠ 0 := ne_of_gt hk
  unfold calculate_stress_utilization
  refine ⟨?_, ?_, ?_⟩ <;> (field_simp ; ring)

/-- C8 witness: the three scaling laws at M = 1, W = 1, S355, s = 1, k = 2. -/
theorem stress_utilization_scaling_witness :
    calculate_stress_utilization (2 * 1) 1 "S355" 1 =
      2 * calculate_stress_utilization 1 1 "S355" 1
    ∧ calculate_stress_utilization 1 (2 * 1) "S355" 1 =
      calculate_stress_utilization 1 1 "S355" 1 / 2
    ∧ calculate_stress_utilization 1 1 "S355" (2 * 1) =
      2 * calculate_stress_utilization 1 1 "S355" 1 :=
  stress_utilization_scaling 1 1 1 2 "S355" (by norm_num) (by norm_num)
    (by norm_num) (by norm_num)

/-- C9: for a material grade outside S235/S275/S355/S460 the yield strength
falls back to 355 N/mm² without raising (the function is total), and the
utilization equals the S355 utilization on the same arguments. -/
theorem unknown_grade_default (M W s : ℚ) (g : String)
    (h1 : g ≠ "S235") (h2 : g ≠ "S275") (h3 : g ≠ "S355") (h4 : g ≠ "S460") :
    material_strength g = 355
    ∧ calculate_stress_utilization M W g s = calculate_stress_utilization M W "S355" s := by
  have hfy : material_strength g = 355 := by
    unfold material_strength
    rw [if_neg h1, if_neg h2, if_neg h3, if_neg h4]
  refine ⟨hfy, ?_⟩
  unfold calculate_stress_utilization
  rw [hfy, material_strength_S355]

/-- C9 witness: grade "S500" uses yield strength 355 and matches S355. -/
theorem unknown_grade_default_witness :
    material_strength "S500" = 355
    ∧ calculate_stress_utilization 1 1 "S500" 1 = calculate_stress_utilization 1 1 "S355" 1 :=
  unknown_grade_default 1 1 1 "S500" (by decide) (by decide) (by decide) (by decide)

/-- C6 counterexample: at stress utilization 1.05, deflection_ok = true,
actual deflection 9 and limit 10 (so deflection exceeds 80% of the limit),
the generator produces TWO messages — the CRITICAL stress message and the
HIGH deflection message — not exactly one. -/
theorem recommendations_counterexample :
    generate_recommendations (21 / 20) true 9 10 =
      ["CRITICAL: Stress utilization (1.05) exceeds limit. Consider larger beam section.",
       "HIGH: Deflection approaches serviceability limit."]
    ∧ (generate_recommendations (21 / 20) true 9 10).length ≠ 1 := by
  have h : generate_recommendations (21 / 20) true 9 10 =
      ["CRITICAL: Stress utilization (1.05) exceeds limit. Consider larger beam section.",
       "HIGH: Deflection approaches serviceability limit."] := by
    unfold generate_recommendations
    rw [if_pos (by norm_num : (21 / 20 : ℚ) > 1)]
    rw [if_neg (by norm_num : ¬ (true = false))]
    rw [if_pos (by norm_num : (9 : ℚ) > 10 * (8 / 10))]
    rw [if_neg (by norm_num : ¬ ((21 / 20 : ℚ) ≤ 1 ∧ true = true))]
    rw [fmtFixed_two_2120]
    rfl
  exact ⟨h, by rw [h] ; decide⟩

/-- C6 amended: with stress utilization 1.05 and deflection_ok = true the
generator always emits the CRITICAL stress message first and never a PASS
message, and it emits exactly that one message when the actual deflection
is at most 80% of the deflection limit. -/
theorem recommendations_critical_amended (d L : ℚ) :
    (generate_recommendations (21 / 20) true d L).head? =
      some "CRITICAL: Stress utilization (1.05) exceeds limit. Consider larger beam section."
    ∧ "PASS: Beam is adequate for the applied loading." ∉
        generate_recommendations (21 / 20) true d L
    ∧ (d ≤ L * (8 / 10) →
        generate_recommendations (21 / 20) true d L =
          ["CRITICAL: Stress utilization (1.05) exceeds limit. Consider larger beam section."]) := by
  have hcrit : ((21 : ℚ) / 20) > 1 := by norm_num
  have hpass : ¬ ((21 / 20 : ℚ) ≤ 1 ∧ true = true) := by norm_num
  unfold generate_recommendations
  rw [if_pos hcrit, if_neg (by norm_num : ¬ (true = false)), if_neg hpass,
    fmtFixed_two_2120]
  refine ⟨rfl, ?_, ?_⟩
  · by_cases hd : d > L * (8 / 10)
    · rw [if_pos hd]
      decide
    · rw [if_neg hd]
      decide
  · intro h
    rw [if_neg (not_lt.mpr h)]
    rfl

/-- C6 amended witness: at deflection 1 and limit 10 only the CRITICAL
stress message is produced. -/
theorem recommendations_critical_amended_witness :
    generate_recommendations (21 / 20) true 1 10 =
      ["CRITICAL: Stress utilization (1.05) exceeds limit. Consider larger beam section."] :=
  (recommendations_critical_amended 1 10).2.2 (by norm_num)

lemma except_bind_ok {ε α β : Type} (a : α) (f : α → Except ε β) :
    (Except.ok a : Except ε α) >>= f = f a := rfl

lemma except_bind_error {ε α β : Type} (e : ε) (f : α → Except ε β) :
    (Except.error e : Except ε α) >>= f = Except.error e := rfl

lemma fmtFixed_low_util : fmtFixed 2 (1440 / 9443 : ℚ) = "0.15" := by
  have h : round ((1440 / 9443 : ℚ) * 10 ^ 2) = 15 := by norm_num [round_eq]
  unfold fmtFixed
  rw [h]
  rfl

lemma recommendations_req0 :
    generate_recommendations (1440 / 9443) true (1875 / 3836) 24 =
      ["LOW: Stress utilization (0.15) is low. Consider smaller section for economy.",
       "PASS: Beam is adequate for the applied loading."] := by
  unfold generate_recommendations
  rw [if_neg (by norm_num : ¬ ((1440 / 9443 : ℚ) > 1)),
    if_neg (by norm_num : ¬ ((1440 / 9443 : ℚ) > 9 / 10)),
    if_pos (by norm_num : (1440 / 9443 : ℚ) < 1 / 2),
    if_neg (by decide : ¬ (true = false)),
    if_neg (by norm_num : ¬ ((1875 / 3836 : ℚ) > 24 * (8 / 10))),
    if_pos (⟨by norm_num, rfl⟩ : (1440 / 9443 : ℚ) ≤ 1 ∧ true = true),
    fmtFixed_low_util]
  rfl

lemma perform_analysis_req0 :
    perform_analysis get_embedded_beam_data req0 = .ok res0 := by
  have hg1 : ¬ (req0.applied_load ≤ 0) := by norm_num [req0]
  have hg2 : ¬ (req0.span_length ≤ 0) := by norm_num [req0]
  have hg3 : ¬ (req0.safety_factor ≤ 0) := by norm_num [req0]
  have hresolve : resolve_beam get_embedded_beam_data req0 = .ok beamUB406x178x74 := rfl
  have hmom : calculate_moment req0.applied_load req0.span_length req0.load_type =
      .ok (45 : ℚ) := by
    show calculate_moment (10 : ℚ) 6 "uniform" = .ok 45
    rw [calculate_moment_pos _ (by norm_num) (by norm_num)]
    norm_num [moment_value]
  have hshear : calculate_shear req0.applied_load req0.load_type = .ok (5 : ℚ) := by
    show calculate_shear (10 : ℚ) "uniform" = .ok 5
    rw [calculate_shear_pos _ (by norm_num)]
    norm_num
  have hdefl : calculate_deflection req0.applied_load req0.span_length
      beamUB406x178x74.second_moment_of_area_axis_y req0.load_type =
      .ok (1875 / 3836 : ℚ) := by
    show calculate_deflection (10 : ℚ) 6 27400 "uniform" = .ok (1875 / 3836)
    rw [calculate_deflection_pos _ (by norm_num) (by norm_num) (by norm_num)]
    unfold deflection_value E
    rw [if_pos rfl, abs_of_nonneg (by norm_num)]
    norm_num
  have hsu : calculate_stress_utilization 45 beamUB406x178x74.elastic_modulus_axis_y
      req0.material_grade req0.safety_factor = 1440 / 9443 := by
    show calculate_stress_utilization 45 1330 "S355" (1.6 : ℚ) = 1440 / 9443
    unfold calculate_stress_utilization
    rw [material_strength_S355]
    norm_num
  have hlim : req0.span_length * 1000 / 250 = (24 : ℚ) := by
    show (6 : ℚ) * 1000 / 250 = 24
    norm_num
  have hdok : decide ((1875 / 3836 : ℚ) ≤ 24) = true := by
    rw [decide_eq_true_eq]
    norm_num
  have hiad : decide ((1440 / 9443 : ℚ) ≤ 1 ∧ true = true) = true := by
    rw [decide_eq_true_eq]
    exact ⟨by norm_num, rfl⟩
  have hr1 : roundTo 2 (45 : ℚ) = 45 := by norm_num [roundTo, round_eq]
  have hr2 : roundTo 2 (5 : ℚ) = 5 := by norm_num [roundTo, round_eq]
  have hr3 : roundTo 2 (1875 / 3836 : ℚ) = 49 / 100 := by norm_num [roundTo, round_eq]
  have hr4 : roundTo 3 (1440 / 9443 : ℚ) = 19 / 125 := by norm_num [roundTo, round_eq]
  have hr5 : roundTo 1 ((1 - 1440 / 9443 : ℚ) * 100) = 424 / 5 := by
    norm_num [roundTo, round_eq]
  unfold perform_analysis
  rw [if_neg hg1, if_neg hg2, if_neg hg3]
  simp only [hresolve, except_bind_ok, hmom, hshear, hdefl, hsu, hlim, hdok, hiad,
    if_pos (by norm_num : (1440 / 9443 : ℚ) < 1), hr1, hr2, hr3, hr4, hr5,
    recommendations_req0]
  rw [show decide ((1440 / 9443 : ℚ) ≤ 1 ∧ True) = true from by
    rw [decide_eq_true_eq] ; exact ⟨by norm_num, trivial⟩]
  rfl

/-- C1 counterexample: on the spec's end-to-end scenario (load 10 kN, span
6 m, uniform, UB406x178x74, S355, safety factor 1.6) the code computes a
rounded max deflection of 0.49 mm — not in the claimed 9–10 mm range — and
a rounded stress utilization of 0.152, not ≈ 0.157. -/
theorem end_to_end_counterexample :
    perform_analysis get_embedded_beam_data req0 = .ok res0
    ∧ res0.max_deflection = 49 / 100
    ∧ ¬ ((9 : ℚ) ≤ res0.max_deflection)
    ∧ res0.stress_utilization = 19 / 125
    ∧ ¬ (res0.stress_utilization = 157 / 1000) := by
  refine ⟨perform_analysis_req0, rfl, ?_, rfl, ?_⟩
  · show ¬ ((9 : ℚ) ≤ 49 / 100)
    norm_num
  · show ¬ ((19 / 125 : ℚ) = 157 / 1000)
    norm_num

/-- C1 amended: the scenario load 10 kN, span 6 m, uniform, UB406x178x74
(I_y 27400 cm⁴, W_y 1330 cm³), S355, safety factor 1.6 yields max moment
45.0 kNm, max shear 5.0 kN, max deflection 0.49 mm (exactly 1875/3836 mm ≈
0.489 before rounding), stress utilization 0.152, deflection limit check
true and is_adequate true. -/
theorem end_to_end_amended :
    perform_analysis get_embedded_beam_data req0 = .ok res0
    ∧ res0.max_moment = 45
    ∧ res0.max_shear = 5
    ∧ res0.max_deflection = 49 / 100
    ∧ res0.stress_utilization = 19 / 125
    ∧ res0.deflection_limit_check = true
    ∧ res0.is_adequate = true :=
  ⟨perform_analysis_req0, rfl, rfl, rfl, rfl, rfl, rfl⟩

/-- C4: whenever `perform_analysis` succeeds, the returned `is_adequate`
flag is true exactly when the stress utilization (recomputed from the
returned beam's modulus and the request) is at most 1 and the computed
deflection is within `span_mm / 250`, the latter being exactly the
`deflection_limit_check` flag. -/
theorem analysis_adequacy (beams : List SteelBeam) (request : CalculationRequest)
    (res : CalculationResult) (m d : ℚ)
    (h : perform_analysis beams request = .ok res)
    (hm : calculate_moment request.applied_load request.span_length request.load_type = .ok m)
    (hd : calculate_deflection request.applied_load request.span_length
      res.beam.second_moment_of_area_axis_y request.load_type = .ok d) :
    (res.is_adequate = true ↔
      (calculate_stress_utilization m res.beam.elastic_modulus_axis_y
          request.material_grade request.safety_factor ≤ 1
        ∧ d ≤ request.span_length * 1000 / 250))
    ∧ (res.deflection_limit_check = true ↔ d ≤ request.span_length * 1000 / 250) := by
  unfold perform_analysis at h
  by_cases hg1 : request.applied_load ≤ 0
  · rw [if_pos hg1] at h
    exact Except.noConfusion h
  rw [if_neg hg1] at h
  by_cases hg2 : request.span_length ≤ 0
  · rw [if_pos hg2] at h
    exact Except.noConfusion h
  rw [if_neg hg2] at h
  by_cases hg3 : request.safety_factor ≤ 0
  · rw [if_pos hg3] at h
    exact Except.noConfusion h
  rw [if_neg hg3] at h
  cases hres : resolve_beam beams request with
  | error e =>
    rw [hres, except_bind_error] at h
    exact Except.noConfusion h
  | ok bd =>
    simp only [hres, except_bind_ok] at h
    simp only [hm, except_bind_ok] at h
    cases hsh : calculate_shear request.applied_load request.load_type with
    | error e =>
      rw [hsh, except_bind_error] at h
      exact Except.noConfusion h
    | ok sv =>
      simp only [hsh, except_bind_ok] at h
      cases hdf : calculate_deflection request.applied_load request.span_length
          bd.second_moment_of_area_axis_y request.load_type with
      | error e =>
        rw [hdf, except_bind_error] at h
        exact Except.noConfusion h
      | ok dv =>
        simp only [hdf, except_bind_ok] at h
        have hrec := (Except.ok.inj h).symm
        have hbeam : res.beam = bd := by rw [hrec]
        have hdv : dv = d := by
          rw [hbeam] at hd
          exact Except.ok.inj (hdf.symm.trans hd)
        subst hdv
        constructor
        · rw [hbeam, hrec]
          simp only [decide_eq_true_eq]
        · rw [hrec]
          simp only [decide_eq_true_eq]

/-- C4 witness: the adequacy equivalence instantiated on the end-to-end
scenario `req0` and its result. -/
theorem analysis_adequacy_witness :
    (res0.is_adequate = true ↔
      (calculate_stress_utilization 45 res0.beam.elastic_modulus_axis_y
          req0.material_grade req0.safety_factor ≤ 1
        ∧ (1875 / 3836 : ℚ) ≤ req0.span_length * 1000 / 250))
    ∧ (res0.deflection_limit_check = true ↔
        (1875 / 3836 : ℚ) ≤ req0.span_length * 1000 / 250) :=
  analysis_adequacy get_embedded_beam_data req0 res0 45 (1875 / 3836)
    perform_analysis_req0
    (by
      show calculate_moment (10 : ℚ) 6 "uniform" = .ok 45
      rw [calculate_moment_pos _ (by norm_num) (by norm_num)]
      norm_num [moment_value])
    (by
      show calculate_deflection (10 : ℚ) 6 27400 "uniform" = .ok (1875 / 3836)
      rw [calculate_deflection_pos _ (by norm_num) (by norm_num) (by norm_num)]
      unfold deflection_value E
      rw [if_pos rfl, abs_of_nonneg (by norm_num)]
      norm_num)

lemma beamSuitable_pos (request : CalculationRequest) (beam : SteelBeam)
    (hl : 0 < request.applied_load) (hs : 0 < request.span_length)
    (hI : 0 < beam.second_moment_of_area_axis_y) :
    beamSuitable request beam =
      (decide (calculate_stress_utilization
          (moment_value request.applied_load request.span_length request.load_type)
          beam.elastic_modulus_axis_y request.material_grade request.safety_factor ≤ 1)
        && decide (deflection_value request.applied_load request.span_length
            beam.second_moment_of_area_axis_y request.load_type ≤
          request.span_length * 1000 / 250)) := by
  unfold beamSuitable
  rw [calculate_moment_pos _ hl hs, calculate_deflection_pos _ hl hs hI]

lemma collect_suitable_pos (request : CalculationRequest)
    (hl : 0 < request.applied_load) (hs : 0 < request.span_length) :
    ∀ beams : List SteelBeam, (∀ b ∈ beams, 0 < b.second_moment_of_area_axis_y) →
      collect_suitable request beams =
        .ok ((beams.filter (fun b => beamSuitable request b)).map (mk_suitable request))
  | [], _ => rfl
  | beam :: rest, h => by
    have hIb : 0 < beam.second_moment_of_area_axis_y := h beam (List.mem_cons_self beam rest)
    have hrest := collect_suitable_pos request hl hs rest
      (fun b hb => h b (List.mem_cons_of_mem _ hb))
    unfold collect_suitable
    simp only [calculate_moment_pos _ hl hs, calculate_deflection_pos _ hl hs hIb,
      except_bind_ok, hrest]
    rw [List.filter_cons]
    by_cases hc : calculate_stress_utilization
        (moment_value request.applied_load request.span_length request.load_type)
        beam.elastic_modulus_axis_y request.material_grade request.safety_factor ≤ 1
        ∧ deflection_value request.applied_load request.span_length
            beam.second_moment_of_area_axis_y request.load_type ≤
          request.span_length * 1000 / 250
    · rw [if_pos hc]
      rw [if_pos (by
        rw [beamSuitable_pos request beam hl hs hIb]
        simp only [Bool.and_eq_true, decide_eq_true_eq]
        exact hc)]
      rfl
    · rw [if_neg hc]
      rw [if_neg (by
        rw [beamSuitable_pos request beam hl hs hIb]
        simp only [Bool.and_eq_true, decide_eq_true_eq]
        exact hc)]

lemma dropWhile_head_false {α : Type} (p : α → Bool) :
    ∀ (l : List α) (r0 : α) (l2 : List α), l.dropWhile p = r0 :: l2 → p r0 = false
  | [], r0, l2, h => by simp [List.dropWhile] at h
  | a :: l, r0, l2, h => by
    rw [List.dropWhile_cons] at h
    by_cases hpa : p a = true
    · rw [if_pos hpa] at h
      exact dropWhile_head_false p l r0 l2 h
    · rw [if_neg hpa] at h
      have hfa : p a = false := by
        cases hb : p a
        · rfl
        · exact absurd hb hpa
      injection h with h1 _
      rw [← h1]
      exact hfa

lemma map_filter_eq_append_cons {α β : Type} (g : α → β) (p : α → Bool) :
    ∀ (l : List α) (A : List β) (x : β) (B : List β),
      (l.filter p).map g = A ++ x :: B →
      ∃ u1 b u2, l = u1 ++ b :: u2 ∧ p b = true ∧ g b = x
        ∧ (u1.filter p).map g = A ∧ (u2.filter p).map g = B
  | [], A, x, B, h => by
    rw [List.filter_nil, List.map_nil] at h
    exact absurd h.symm (List.append_ne_nil_of_right_ne_nil A (List.cons_ne_nil x B))
  | a :: l, A, x, B, h => by
    rw [List.filter_cons] at h
    by_cases hpa : p a = true
    · rw [if_pos hpa, List.map_cons] at h
      cases A with
      | nil =>
        rw [List.nil_append] at h
        injection h with h1 h2
        exact ⟨[], a, l, rfl, hpa, h1, rfl, h2⟩
      | cons a' A' =>
        rw [List.cons_append] at h
        injection h with h1 h2
        obtain ⟨u1, b, u2, hl, hpb, hgb, hA, hB⟩ :=
          map_filter_eq_append_cons g p l A' x B h2
        exact ⟨a :: u1, b, u2, by rw [List.cons_append, ← hl], hpb, hgb,
          by rw [List.filter_cons, if_pos hpa, List.map_cons, hA, h1], hB⟩
    · rw [if_neg hpa] at h
      obtain ⟨u1, b, u2, hl, hpb, hgb, hA, hB⟩ := map_filter_eq_append_cons g p l A x B h
      exact ⟨a :: u1, b, u2, by rw [List.cons_append, ← hl], hpb, hgb,
        by rw [List.filter_cons, if_neg hpa, hA], hB⟩

lemma head_mergeSort_first_min {α : Type} (f : α → ℚ) (l : List α) (x : α) (t : List α)
    (h : l.mergeSort (fun a b => decide (f a ≤ f b)) = x :: t) :
    ∃ l1 l2, l = l1 ++ x :: l2 ∧ (∀ y ∈ l1, f x < f y) ∧ ∀ y ∈ l, f x ≤ f y := by
  have htrans : ∀ (a b c : α), decide (f a ≤ f b) = true → decide (f b ≤ f c) = true →
      decide (f a ≤ f c) = true := by
    intro a b c hab hbc
    simp only [decide_eq_true_eq] at hab hbc ⊢
    exact le_trans hab hbc
  have htotal : ∀ (a b : α), (decide (f a ≤ f b) || decide (f b ≤ f a)) = true := by
    intro a b
    simp only [Bool.or_eq_true, decide_eq_true_eq]
    exact le_total (f a) (f b)
  have hperm : List.Perm (l.mergeSort (fun a b => decide (f a ≤ f b))) l :=
    List.mergeSort_perm l _
  have hsorted := List.sorted_mergeSort htrans htotal l
  rw [h] at hsorted hperm
  have hxl : x ∈ l := hperm.mem_iff.mp (List.mem_cons_self x t)
  have hmin : ∀ y ∈ l, f x ≤ f y := by
    intro y hy
    rcases List.mem_cons.mp (hperm.mem_iff.mpr hy) with hxy | hyt
    · rw [hxy]
    · have := List.rel_of_pairwise_cons hsorted hyt
      simpa using this
  obtain ⟨r0, l2, hrest⟩ :
      ∃ r0 l2, l.dropWhile (fun y => decide (f x < f y)) = r0 :: l2 := by
    cases hd : l.dropWhile (fun y => decide (f x < f y)) with
    | nil =>
      exfalso
      have hx1 : x ∉ l.takeWhile (fun y => decide (f x < f y)) := by
        intro hx
        have := List.mem_takeWhile_imp hx
        simp only [decide_eq_true_eq] at this
        exact absurd this (lt_irrefl _)
      have hx2 : x ∈ l.takeWhile (fun y => decide (f x < f y)) ++
          l.dropWhile (fun y => decide (f x < f y)) := by
        rw [List.takeWhile_append_dropWhile]
        exact hxl
      rcases List.mem_append.mp hx2 with h1 | h2
      · exact hx1 h1
      · rw [hd] at h2
        exact absurd h2 (List.not_mem_nil x)
    | cons r0 l2 => exact ⟨r0, l2, rfl⟩
  have hl1lt : ∀ y ∈ l.takeWhile (fun y => decide (f x < f y)), f x < f y := by
    intro y hy
    have := List.mem_takeWhile_imp hy
    simpa using this
  have hpr0 : f r0 ≤ f x := by
    have := dropWhile_head_false (fun y => decide (f x < f y)) l r0 l2 hrest
    simp only [decide_eq_false_iff_not] at this
    exact le_of_not_lt this
  have hldecomp : l = l.takeWhile (fun y => decide (f x < f y)) ++ r0 :: l2 := by
    conv_lhs => rw [← List.takeWhile_append_dropWhile (fun y => decide (f x < f y)) l]
    rw [hrest]
  have hfilter : l.filter (fun y => decide (f y ≤ f x)) =
      r0 :: l2.filter (fun y => decide (f y ≤ f x)) := by
    have h' := congrArg (List.filter (fun y => decide (f y ≤ f x))) hldecomp
    rw [List.filter_append, List.filter_cons] at h'
    have h1 : (l.takeWhile (fun y => decide (f x < f y))).filter
        (fun y => decide (f y ≤ f x)) = [] := by
      rw [List.filter_eq_nil_iff]
      intro a ha
      have := hl1lt a ha
      simp only [decide_eq_true_eq]
      exact not_le.mpr this
    rw [h1, List.nil_append, if_pos (decide_eq_true hpr0)] at h'
    exact h'
  by_cases hrx : r0 = x
  · subst hrx
    exact ⟨l.takeWhile (fun y => decide (f r0 < f y)), l2, hldecomp, hl1lt, hmin⟩
  · exfalso
    have hcpair : (l.filter (fun y => decide (f y ≤ f x))).Pairwise
        (fun a b => decide (f a ≤ f b) = true) := by
      apply List.pairwise_of_forall_mem_list
      intro a ha b hb
      have ha' : f a ≤ f x := by
        have := List.of_mem_filter ha
        simpa using this
      have hb' : b ∈ l := List.mem_of_mem_filter hb
      exact decide_eq_true (le_trans ha' (hmin b hb'))
    have hcsub : List.Sublist (l.filter (fun y => decide (f y ≤ f x))) l :=
      List.filter_sublist l
    have hstable := List.sublist_mergeSort htrans htotal hcpair hcsub
    rw [h, hfilter] at hstable
    have hsub_t : List.Sublist (r0 :: l2.filter (fun y => decide (f y ≤ f x))) t := by
      cases hstable with
      | cons _ hsub => exact hsub
      | cons₂ _ hsub => exact absurd rfl hrx
    have hcount_le : (r0 :: l2.filter (fun y => decide (f y ≤ f x))).countP
        (fun y => decide (f y ≤ f x)) ≤ t.countP (fun y => decide (f y ≤ f x)) :=
      hsub_t.countP_le _
    have hc1 : (r0 :: l2.filter (fun y => decide (f y ≤ f x))).countP
        (fun y => decide (f y ≤ f x)) =
        (l2.filter (fun y => decide (f y ≤ f x))).length + 1 := by
      rw [List.countP_cons_of_pos (fun y => decide (f y ≤ f x)) _
        (show decide (f r0 ≤ f x) = true from decide_eq_true hpr0)]
      congr 1
      rw [List.countP_filter]
      simp only [Bool.and_self]
      exact List.countP_eq_length_filter _ _
    have hc2 : (x :: t).countP (fun y => decide (f y ≤ f x)) =
        (l2.filter (fun y => decide (f y ≤ f x))).length + 1 := by
      rw [hperm.countP_eq, List.countP_eq_length_filter, hfilter]
      simp
    have hc3 : (x :: t).countP (fun y => decide (f y ≤ f x)) =
        t.countP (fun y => decide (f y ≤ f x)) + 1 := by
      rw [List.countP_cons_of_pos (fun y => decide (f y ≤ f x)) _
        (show decide (f x ≤ f x) = true from decide_eq_true (le_refl (f x)))]
    omega

/-- C3: with valid load and span and a catalog whose second moments of area
are all positive, the optimal-section search returns only suitable sections
(utilization at most 1 and deflection within span_mm/250), of minimal mass
among the suitable ones, with ties broken in favour of the first suitable
minimal-mass section in catalog order; and it fails with `noSuitableOption`
exactly on a catalog with no suitable section (including an empty one). -/
theorem find_optimal_beam_spec (beams : List SteelBeam) (request : CalculationRequest)
    (hl : 0 < request.applied_load) (hs : 0 < request.span_length)
    (hI : ∀ b ∈ beams, 0 < b.second_moment_of_area_axis_y) :
    (∀ b, find_optimal_beam beams request = .ok b →
      beamSuitable request b = true
      ∧ (∀ b' ∈ beams, beamSuitable request b' = true →
          b.mass_per_metre ≤ b'.mass_per_metre)
      ∧ ∃ l1 l2, beams = l1 ++ b :: l2
          ∧ ∀ b' ∈ l1, beamSuitable request b' = true →
              b.mass_per_metre < b'.mass_per_metre)
    ∧ ((∀ b ∈ beams, beamSuitable request b = false) →
        find_optimal_beam beams request = .error .noSuitableOption) := by
  have hcollect := collect_suitable_pos request hl hs beams hI
  constructor
  · intro b hb
    unfold find_optimal_beam at hb
    simp only [hcollect, except_bind_ok] at hb
    by_cases hemp : ((beams.filter (fun b => beamSuitable request b)).map
        (mk_suitable request)).isEmpty
    · rw [if_pos hemp] at hb
      exact Except.noConfusion hb
    rw [if_neg hemp] at hb
    cases hms : ((beams.filter (fun b => beamSuitable request b)).map
        (mk_suitable request)).mergeSort (fun a b => decide (a.mass ≤ b.mass)) with
    | nil =>
      rw [hms] at hb
      exact Except.noConfusion hb
    | cons s0 rest =>
      rw [hms] at hb
      have hbeq : s0.beam = b := Except.ok.inj hb
      obtain ⟨S1, S2, hSdec, hS1, hSall⟩ :=
        head_mergeSort_first_min SuitableBeam.mass _ s0 rest hms
      obtain ⟨u1, b0, u2, hudec, hpb0, hgb0, hA, _⟩ :=
        map_filter_eq_append_cons (mk_suitable request)
          (fun b => beamSuitable request b) beams S1 s0 S2 hSdec
      have hbb : b = b0 := by
        rw [← hbeq, ← hgb0]
        rfl
      have hmass : s0.mass = b0.mass_per_metre := by
        rw [← hgb0]
        rfl
      refine ⟨?_, ?_, ?_⟩
      · rw [hbb]
        exact hpb0
      · intro b' hb' hsuit
        have hmem : mk_suitable request b' ∈ (beams.filter
            (fun b => beamSuitable request b)).map (mk_suitable request) :=
          List.mem_map_of_mem _ (List.mem_filter.mpr ⟨hb', hsuit⟩)
        have := hSall _ hmem
        rw [hmass] at this
        rw [hbb]
        exact this
      · refine ⟨u1, u2, by rw [hudec, hbb], ?_⟩
        intro b' hb' hsuit
        have hmem : mk_suitable request b' ∈ S1 := by
          rw [← hA]
          exact List.mem_map_of_mem _ (List.mem_filter.mpr ⟨hb', hsuit⟩)
        have := hS1 _ hmem
        rw [hmass] at this
        rw [hbb]
        exact this
  · intro hnone
    unfold find_optimal_beam
    simp only [hcollect, except_bind_ok]
    have hfe : beams.filter (fun b => beamSuitable request b) = [] :=
      List.filter_eq_nil_iff.mpr (fun a ha => by rw [hnone a ha] ; simp)
    rw [hfe]
    rfl

lemma beamSuitable_req1_74 : beamSuitable req1 beamUB406x178x74 = true := by
  have hsu : calculate_stress_utilization
      (moment_value req1.applied_load req1.span_length req1.load_type)
      beamUB406x178x74.elastic_modulus_axis_y req1.material_grade req1.safety_factor =
      1440 / 9443 := by
    show calculate_stress_utilization (moment_value 10 6 "uniform") 1330 "S355" (1.6 : ℚ) =
      1440 / 9443
    rw [show moment_value (10 : ℚ) 6 "uniform" = 45 from by norm_num [moment_value]]
    unfold calculate_stress_utilization
    rw [material_strength_S355]
    norm_num
  have hdv : deflection_value req1.applied_load req1.span_length
      beamUB406x178x74.second_moment_of_area_axis_y req1.load_type = 1875 / 3836 := by
    show deflection_value (10 : ℚ) 6 27400 "uniform" = 1875 / 3836
    unfold deflection_value E
    rw [if_pos rfl, abs_of_nonneg (by norm_num)]
    norm_num
  rw [beamSuitable_pos req1 beamUB406x178x74 (by norm_num [req1]) (by norm_num [req1])
    (by norm_num [beamUB406x178x74]), hsu, hdv,
    show req1.span_length * 1000 / 250 = (24 : ℚ) from by
      show (6 : ℚ) * 1000 / 250 = 24 ; norm_num,
    decide_eq_true (by norm_num : (1440 / 9443 : ℚ) ≤ 1),
    decide_eq_true (by norm_num : (1875 / 3836 : ℚ) ≤ 24)]
  rfl

lemma find_optimal_single :
    find_optimal_beam [beamUB406x178x74] req1 = .ok beamUB406x178x74 := by
  have hcoll := collect_suitable_pos req1 (by norm_num [req1]) (by norm_num [req1])
    [beamUB406x178x74] (by
      intro b hb
      rw [List.mem_singleton] at hb
      rw [hb]
      norm_num [beamUB406x178x74])
  unfold find_optimal_beam
  simp only [hcoll, except_bind_ok]
  rw [List.filter_cons, if_pos beamSuitable_req1_74]
  simp only [List.filter_nil, List.map_cons, List.map_nil, List.isEmpty_cons,
    List.mergeSort_singleton]
  rfl

/-- C3 witness: for the scenario of `req1` (load 10, span 6, uniform, no
target designation) over the one-section catalog `[beamUB406x178x74]`, the
returned section is suitable, of minimal mass among suitable sections, and
first in catalog order among minimal-mass ties. -/
theorem find_optimal_beam_spec_witness :
    beamSuitable req1 beamUB406x178x74 = true
    ∧ (∀ b' ∈ [beamUB406x178x74], beamSuitable req1 b' = true →
        beamUB406x178x74.mass_per_metre ≤ b'.mass_per_metre)
    ∧ ∃ l1 l2, [beamUB406x178x74] = l1 ++ beamUB406x178x74 :: l2
        ∧ ∀ b' ∈ l1, beamSuitable req1 b' = true →
            beamUB406x178x74.mass_per_metre < b'.mass_per_metre :=
  (find_optimal_beam_spec [beamUB406x178x74] req1 (by norm_num [req1])
    (by norm_num [req1]) (by
      intro b hb
      rw [List.mem_singleton] at hb
      rw [hb]
      norm_num [beamUB406x178x74])).1 beamUB406x178x74 find_optimal_single

lemma collect_suitable_bad (request : CalculationRequest)
    (hl : 0 < request.applied_load) (hs : 0 < request.span_length) :
    ∀ beams : List SteelBeam, (∃ b ∈ beams, b.second_moment_of_area_axis_y ≤ 0) →
      collect_suitable request beams =
        .error (.invalidInput "Load, span, and moment of inertia must be positive values")
  | [], h => absurd h (by simp)
  | beam :: rest, h => by
    unfold collect_suitable
    by_cases hIb : beam.second_moment_of_area_axis_y ≤ 0
    · have hdef : calculate_deflection request.applied_load request.span_length
          beam.second_moment_of_area_axis_y request.load_type =
          .error (.invalidInput
            "Load, span, and moment of inertia must be positive values") := by
        unfold calculate_deflection
        rw [if_pos (Or.inr (Or.inr hIb))]
      simp only [calculate_moment_pos _ hl hs, except_bind_ok, hdef, except_bind_error]
    · have hIb' : 0 < beam.second_moment_of_area_axis_y := not_le.mp hIb
      have hrest : ∃ b ∈ rest, b.second_moment_of_area_axis_y ≤ 0 := by
        rcases h with ⟨b, hb, hbI⟩
        rcases List.mem_cons.mp hb with hbe | hbr
        · rw [hbe] at hbI
          exact absurd hbI hIb
        · exact ⟨b, hbr, hbI⟩
      have hr := collect_suitable_bad request hl hs rest hrest
      simp only [calculate_moment_pos _ hl hs, except_bind_ok,
        calculate_deflection_pos _ hl hs hIb', hr, except_bind_error]

/-- C10: when the scenario itself is valid (positive load and span) but some
catalog entry has a non-positive second moment of area, the optimal-section
search propagates the `InvalidInput` error raised by the deflection
calculation on that entry and returns no section, regardless of any other
suitable candidates. -/
theorem find_optimal_beam_bad_candidate (beams : List SteelBeam)
    (request : CalculationRequest)
    (hl : 0 < request.applied_load) (hs : 0 < request.span_length)
    (hbad : ∃ b ∈ beams, b.second_moment_of_area_axis_y ≤ 0) :
    find_optimal_beam beams request =
      .error (.invalidInput "Load, span, and moment of inertia must be positive values") := by
  unfold find_optimal_beam
  rw [collect_suitable_bad request hl hs beams hbad]
  rfl

/-- C10 witness: a catalog whose first entry is suitable for the `req1`
scenario and whose second entry has `I = 0` still aborts with the
deflection calculator's `InvalidInput` error. -/
theorem find_optimal_beam_bad_candidate_witness :
    find_optimal_beam [beamUB406x178x74, badBeam] req1 =
      .error (.invalidInput "Load, span, and moment of inertia must be positive values") :=
  find_optimal_beam_bad_candidate [beamUB406x178x74, badBeam] req1
    (by norm_num [req1]) (by norm_num [req1])
    ⟨badBeam, by simp, le_of_eq rfl⟩

end CalcEngine
